import Mathlib

/-!
Verification of the Financial-Portfolio-Tracker core against its
natural-language specification.

The repository carries two variants of the tracker:
* variant A: `src/python/portfolio_tracker.py`
* variant B: `src/Financial-Portfolio-Tracker/python/portfolio_tracker.py`

Python `float` arithmetic is embedded as exact rational arithmetic (`ℚ`),
following the spec's data model, which declares quantity and cost decimal.
SQLite `NULL` propagation (division by zero yields `NULL`) is embedded with
`Option ℚ`.  Database tables become association lists; the SQL
`UPDATE`/`DELETE`/`INSERT` statements become `setPos`/`erasePos`/append.
A Python exception escaping a function is embedded as an `Option`/flag
result; variant A commits the transaction insert and the position update
together (single `conn.commit()` at the end of `add_transaction`), while
variant B commits the transaction insert before calling `_update_position`,
which the embedding reflects by building the intermediate state first.

Both schema scripts (`demo_database_setup.py` in each tree) declare
`transaction_type TEXT CHECK(transaction_type IN ('BUY', 'SELL'))` on the
transactions table and no constraint beyond NOT NULL on quantity and price;
the embedding therefore fails the transaction insert exactly when the type
is neither "BUY" nor "SELL" (SQLite IntegrityError at execute, caught in
variant A's except block, rolled back and re-raised in variant B's).
Variant B's `add_transaction` first runs `_ensure_security_exists`: a
symbol already in the securities table is a no-op, and a missing one calls
`self.market_service.get_security_info`, a method `MarketDataService` does
not define, so the call raises AttributeError before any insert — the
state keeps the set of known security symbols to embed this.  Variant A's
securities-metadata insert (`INSERT OR IGNORE` after `get_company_info`,
which catches every exception) affects no claim and does not gate control
flow, so variant A's embedding does not write the securities table.
-/

/-- A row of the `positions` table: current quantity and weighted-average
cost for one (portfolio, symbol) pair. -/
structure Position where
  quantity : ℚ
  avg_cost : ℚ
deriving DecidableEq

/-- Key of the `positions` table: (portfolio_id, symbol). -/
abbrev PosKey := Nat × String

/-- A row of the append-only `transactions` table. -/
structure Transaction where
  portfolio_id : Nat
  symbol : String
  quantity : ℚ
  price : ℚ
  transaction_type : String
deriving DecidableEq

/-- The database state relevant to the claims: the `portfolios` table
(id, name), the symbols present in the `securities` table, the
`transactions` log and the `positions` table. -/
structure TrackerState where
  portfolios : List (Nat × String)
  securities : List String
  transactions : List Transaction
  positions : List (PosKey × Position)
deriving DecidableEq

/-- SELECT of a single position row by key (first match, as under the
one-row-per-key schema). -/
def lookupPos : List (PosKey × Position) → PosKey → Option Position
  | [], _ => none
  | kv :: rest, k => if kv.1 = k then some kv.2 else lookupPos rest k

/-- SQL `UPDATE positions SET ... WHERE portfolio_id = ? AND symbol = ?`. -/
def setPos : List (PosKey × Position) → PosKey → Position → List (PosKey × Position)
  | [], _, _ => []
  | kv :: rest, k, v => if kv.1 = k then (k, v) :: setPos rest k v else kv :: setPos rest k v

/-- SQL `DELETE FROM positions WHERE portfolio_id = ? AND symbol = ?`. -/
def erasePos : List (PosKey × Position) → PosKey → List (PosKey × Position)
  | [], _ => []
  | kv :: rest, k => if kv.1 = k then erasePos rest k else kv :: erasePos rest k

/-- SELECT portfolio_id FROM portfolios WHERE name = ?. -/
def lookupPortfolio : List (Nat × String) → String → Option Nat
  | [], _ => none
  | p :: rest, name => if p.2 = name then some p.1 else lookupPortfolio rest name

/-- Embedding of `_update_position` of variant A
(`src/python/portfolio_tracker.py`, lines 141-179).  Any string other than
`"BUY"` falls into the `else:  # SELL` branch, exactly as in the source.
The result is `none` when the Python raises `ZeroDivisionError`, i.e. on a
BUY against an existing row whose new quantity is exactly zero (the source
divides by `new_qty` before checking it); a row whose new quantity is `≤ 0`
is deleted, otherwise it is updated in place. -/
def updatePositionA (ps : List (PosKey × Position)) (pid : Nat) (sym : String)
    (quantity : ℚ) (ttype : String) (price : ℚ) : Option (List (PosKey × Position)) :=
  match lookupPos ps (pid, sym) with
  | some cur =>
    if ttype = "BUY" then
      let newQty := cur.quantity + quantity
      if newQty = 0 then none
      else
        let newAvg := (cur.quantity * cur.avg_cost + quantity * price) / newQty
        some (if newQty ≤ 0 then erasePos ps (pid, sym)
              else setPos ps (pid, sym) ⟨newQty, newAvg⟩)
    else
      let newQty := cur.quantity - quantity
      some (if newQty ≤ 0 then erasePos ps (pid, sym)
            else setPos ps (pid, sym) ⟨newQty, cur.avg_cost⟩)
  | none =>
    some (if ttype = "BUY" then ps ++ [((pid, sym), ⟨quantity, price⟩)] else ps)

/-- Embedding of `add_transaction` of variant A
(`src/python/portfolio_tracker.py`, lines 75-139).  All writes go through a
single `conn.commit()` at the end, so any exception — unknown portfolio,
the transactions INSERT violating the schema's
`CHECK(transaction_type IN ('BUY', 'SELL'))`
(`src/python/demo_database_setup.py`, line 76; SQLite raises IntegrityError
at execute), or `ZeroDivisionError` inside `_update_position` — leaves the
state unchanged and returns `False`; on success the transaction record and
the position update land together and the call returns `True`. -/
def addTransactionA (st : TrackerState) (portfolio_name symbol : String)
    (quantity price : ℚ) (ttype : String) : TrackerState × Bool :=
  match lookupPortfolio st.portfolios portfolio_name with
  | none => (st, false)
  | some pid =>
    if ttype = "BUY" ∨ ttype = "SELL" then
      match updatePositionA st.positions pid symbol quantity ttype price with
      | none => (st, false)
      | some ps' =>
        ({ st with
            transactions := st.transactions ++ [⟨pid, symbol, quantity, price, ttype⟩],
            positions := ps' }, true)
    else (st, false)

/-- Embedding of `_update_position` of variant B
(`src/Financial-Portfolio-Tracker/python/portfolio_tracker.py`,
lines 149-193).  A BUY guards the division with `if new_qty > 0 else price`;
an update is written only when `new_qty >= 0`, otherwise the function logs a
warning and leaves the row untouched; a missing row is created only for a
BUY. -/
def updatePositionB (ps : List (PosKey × Position)) (pid : Nat) (sym : String)
    (quantity price : ℚ) (ttype : String) : List (PosKey × Position) :=
  match lookupPos ps (pid, sym) with
  | some cur =>
    let newQty := if ttype = "BUY" then cur.quantity + quantity else cur.quantity - quantity
    let newCost :=
      if ttype = "BUY" then
        if cur.quantity + quantity > 0 then
          (cur.quantity * cur.avg_cost + quantity * price) / (cur.quantity + quantity)
        else price
      else cur.avg_cost
    if newQty ≥ 0 then setPos ps (pid, sym) ⟨newQty, newCost⟩ else ps
  | none =>
    if ttype = "BUY" then ps ++ [((pid, sym), ⟨quantity, price⟩)] else ps

/-- Embedding of `add_transaction` of variant B
(`src/Financial-Portfolio-Tracker/python/portfolio_tracker.py`,
lines 78-127).  After the portfolio lookup, `_ensure_security_exists` runs:
for a symbol absent from the securities table it calls
`self.market_service.get_security_info`, which `MarketDataService`
(`market_data_service.py`) does not define, so Python raises
AttributeError, the except block rolls back and re-raises — no insert
happens and the failure is surfaced (`none` here).  The transactions INSERT
is subject to the schema's `CHECK(transaction_type IN ('BUY', 'SELL'))`
(`demo_database_setup.py`, line 92): an unrecognized type raises
IntegrityError, again rolled back and re-raised.  Otherwise the insert is
committed (its own `self.conn.commit()`) before `_update_position` runs, so
the intermediate state with the record appended exists on its own; the call
returns the new transaction id. -/
def addTransactionB (st : TrackerState) (portfolio_name symbol : String)
    (quantity price : ℚ) (ttype : String) : TrackerState × Option Nat :=
  match lookupPortfolio st.portfolios portfolio_name with
  | none => (st, none)
  | some pid =>
    if symbol ∈ st.securities then
      if ttype = "BUY" ∨ ttype = "SELL" then
        let st1 : TrackerState :=
          { st with transactions := st.transactions ++ [⟨pid, symbol, quantity, price, ttype⟩] }
        ({ st1 with positions := updatePositionB st1.positions pid symbol quantity price ttype },
         some st.transactions.length)
      else (st, none)
    else (st, none)

/-- SELECT price FROM market_data WHERE symbol = ?. -/
def lookupPrice : List (String × ℚ) → String → Option ℚ
  | [], _ => none
  | sp :: rest, s => if sp.1 = s then some sp.2 else lookupPrice rest s

/-- SQL `COALESCE(md.price, pos.avg_cost)`: the live price when the symbol
is in the market_data table, else the position's average cost. -/
def effectivePrice (md : List (String × ℚ)) (sym : String) (avg : ℚ) : ℚ :=
  (lookupPrice md sym).getD avg

/-- SQLite division: `a / b`, and `NULL` when the divisor is zero. -/
def sqliteDiv (a b : ℚ) : Option ℚ := if b = 0 then none else some (a / b)

/-- Rounding half away from zero, as SQLite `ROUND` behaves on the decimal
values in play. -/
def roundHalfAway (x : ℚ) : ℤ := if 0 ≤ x then ⌊x + 1 / 2⌋ else -⌊1 / 2 - x⌋

/-- SQLite `ROUND(x, d)`. -/
def sqliteRound (x : ℚ) (d : ℕ) : ℚ := (roundHalfAway (x * 10 ^ d) : ℚ) / 10 ^ d

/-- A row of variant A's `get_positions_detail` query
(`src/python/portfolio_tracker.py`, lines 401-431).  `return_percent` is
`((COALESCE(md.price, pos.avg_cost) / pos.avg_cost) - 1) * 100`, `NULL`
under SQLite when `avg_cost = 0`. -/
structure DetailRow where
  symbol : String
  quantity : ℚ
  avg_cost : ℚ
  current_price : Option ℚ
  cost_basis : ℚ
  market_value : ℚ
  return_percent : Option ℚ
deriving DecidableEq

/-- The per-position computation of `get_positions_detail` (variant A). -/
def positionDetailRow (md : List (String × ℚ)) (k : PosKey) (pos : Position) : DetailRow :=
  { symbol := k.2
    quantity := pos.quantity
    avg_cost := pos.avg_cost
    current_price := lookupPrice md k.2
    cost_basis := pos.quantity * pos.avg_cost
    market_value := pos.quantity * effectivePrice md k.2 pos.avg_cost
    return_percent :=
      (sqliteDiv (effectivePrice md k.2 pos.avg_cost) pos.avg_cost).map (fun r => (r - 1) * 100) }

/-- `SUM(pos.quantity * pos.avg_cost)` of the summary query
(`get_portfolio_summary`). -/
def summaryCostBasis (ps : List (PosKey × Position)) : ℚ :=
  (ps.map (fun kv => kv.2.quantity * kv.2.avg_cost)).sum

/-- `SUM(pos.quantity * COALESCE(md.price, pos.avg_cost))` of the summary
query. -/
def summaryMarketValue (md : List (String × ℚ)) (ps : List (PosKey × Position)) : ℚ :=
  (ps.map (fun kv => kv.2.quantity * effectivePrice md kv.1.2 kv.2.avg_cost)).sum

/-- `Unrealized_PL` of the summary query: market value minus cost basis. -/
def summaryUnrealizedPL (md : List (String × ℚ)) (ps : List (PosKey × Position)) : ℚ :=
  summaryMarketValue md ps - summaryCostBasis ps

/-- SQLite `PRINTF('%.1f%%', x)`: printf renders a NULL numeric argument as
0.0, so the wrapper turns the NULL of a division by zero into 0.0%.  The
numeric content of the rendered string is modeled as the argument (0 when
NULL) rounded to one decimal. -/
def printfPercent1 (x : Option ℚ) : ℚ := sqliteRound (x.getD 0) 1

/-- `Total_Return` of variant A's summary query
(`src/python/portfolio_tracker.py`, lines 202-204):
`PRINTF('%.1f%%', ((SUM(mv) / SUM(cb)) - 1) * 100)`.  The inner division is
`NULL` under SQLite when the summed cost basis is zero, and the PRINTF
wrapper renders that NULL as 0.0%. -/
def summaryTotalReturn (md : List (String × ℚ)) (ps : List (PosKey × Position)) : ℚ :=
  printfPercent1
    ((sqliteDiv (summaryMarketValue md ps) (summaryCostBasis ps)).map (fun r => (r - 1) * 100))

/-- Input rows of `get_performance_analytics`
(`src/python/portfolio_tracker.py`, lines 298-360): per position the
quantity, the average cost and the (possibly missing) market price. -/
abbrev PerfRow := ℚ × ℚ × Option ℚ

/-- `total_cost = (quantity * avg_cost).sum()`. -/
def perfTotalCost (rows : List PerfRow) : ℚ :=
  (rows.map (fun r => r.1 * r.2.1)).sum

/-- `total_value = (quantity * price.fillna(avg_cost)).sum()`. -/
def perfTotalValue (rows : List PerfRow) : ℚ :=
  (rows.map (fun r => r.1 * (r.2.2.getD r.2.1))).sum

/-- `total_return = (unrealized_pl / total_cost * 100) if total_cost > 0
else 0` (`src/python/portfolio_tracker.py`, line 333). -/
def perfTotalReturn (rows : List PerfRow) : ℚ :=
  if perfTotalCost rows > 0 then
    (perfTotalValue rows - perfTotalCost rows) / perfTotalCost rows * 100
  else 0

/-- A row of variant B's `get_winners_losers` query
(`src/Financial-Portfolio-Tracker/python/portfolio_tracker.py`,
lines 336-349).  `total_return` is
`ROUND(((COALESCE(md.price, avg) - avg) / avg) * 100, 1)`, `NULL` when
`avg = 0`. -/
structure WLRow where
  symbol : String
  live_price : ℚ
  market_value : ℚ
  total_return : Option ℚ
  pl_amount : ℚ
deriving DecidableEq

/-- The per-position row computation of `get_winners_losers`. -/
def wlRow (md : List (String × ℚ)) (k : PosKey) (pos : Position) : WLRow :=
  { symbol := k.2
    live_price := sqliteRound (effectivePrice md k.2 pos.avg_cost) 2
    market_value := sqliteRound (pos.quantity * effectivePrice md k.2 pos.avg_cost) 2
    total_return :=
      (sqliteDiv (effectivePrice md k.2 pos.avg_cost - pos.avg_cost) pos.avg_cost).map
        (fun r => sqliteRound (r * 100) 1)
    pl_amount := sqliteRound (pos.quantity * (effectivePrice md k.2 pos.avg_cost - pos.avg_cost)) 2 }

/-- Row extraction of `get_winners_losers`: open positions
(`WHERE pos.quantity > 0`), optionally filtered to one portfolio. -/
def wlRows (md : List (String × ℚ)) (ps : List (PosKey × Position))
    (pfilter : Option Nat) : List WLRow :=
  (ps.filter (fun kv =>
      decide (0 < kv.2.quantity) &&
        match pfilter with
        | none => true
        | some pid => kv.1.1 == pid)).map (fun kv => wlRow md kv.1 kv.2)

/-- Descending comparison on `Total_Return` used by
`df.sort_values('Total_Return', ascending=False)`; pandas places missing
values last. -/
def wlGE (a b : WLRow) : Bool :=
  match a.total_return, b.total_return with
  | some x, some y => decide (y ≤ x)
  | some _, none => true
  | none, some _ => false
  | none, none => true

/-- The sort relation of `get_winners_losers` as a binary relation on
rows: a may come before b when a's return key is at least b's. -/
def wlDesc (a b : WLRow) : Prop := wlGE a b = true

instance : DecidableRel wlDesc := fun a b => instDecidableEqBool (wlGE a b) true

instance : IsTotal WLRow wlDesc := by
  constructor
  intro a b
  unfold wlDesc wlGE
  cases ha : a.total_return <;> cases hb : b.total_return <;> simp
  exact le_total _ _

instance : IsTrans WLRow wlDesc := by
  constructor
  intro a b c hab hbc
  unfold wlDesc wlGE at hab hbc ⊢
  cases ha : a.total_return <;> cases hb : b.total_return <;> cases hc : c.total_return <;>
    simp_all
  exact le_trans hbc hab

/-- Embedding of `get_winners_losers`
(`src/Financial-Portfolio-Tracker/python/portfolio_tracker.py`,
lines 325-372): on an empty frame return two empty lists, otherwise sort by
`Total_Return` descending and return `df.head(5)` and `df.tail(5)`.  The
source sorts with pandas (tie order implementation-defined); the embedding
sorts under the same key with an insertion sort, and theorems whose truth
could depend on tie order use rows with pairwise-distinct keys. -/
def getWinnersLosers (md : List (String × ℚ)) (ps : List (PosKey × Position))
    (pfilter : Option Nat) : List WLRow × List WLRow :=
  let rows := wlRows md ps pfilter
  if rows.isEmpty then ([], [])
  else
    let sorted := List.insertionSort wlDesc rows
    (sorted.take 5, sorted.drop (sorted.length - 5))

/-- Replay of a BUY-only transaction list against variant A's
`_update_position`, starting from an empty positions table; each element is
a (quantity, price) pair. -/
def applyBuysA (pid : Nat) (sym : String) (l : List (ℚ × ℚ)) :
    Option (List (PosKey × Position)) :=
  l.foldlM (fun ps qp => updatePositionA ps pid sym qp.1 "BUY" qp.2) []

/-- Sum of the bought quantities. -/
def sumQ (l : List (ℚ × ℚ)) : ℚ := (l.map Prod.fst).sum

/-- Sum of quantity × price over the buys. -/
def sumQP (l : List (ℚ × ℚ)) : ℚ := (l.map (fun x => x.1 * x.2)).sum

/-!  Association-list lemmas shared by the claim proofs. -/

theorem lookupPos_setPos_self {ps : List (PosKey × Position)} {k : PosKey} {v : Position}
    (h : (lookupPos ps k).isSome) : lookupPos (setPos ps k v) k = some v := by
  induction ps with
  | nil => simp [lookupPos] at h
  | cons kv rest ih =>
    by_cases hk : kv.1 = k
    · simp [lookupPos, setPos, hk]
    · simp [lookupPos, setPos, hk] at h ⊢
      exact ih h

theorem lookupPos_append_self {ps : List (PosKey × Position)} {k : PosKey} {v : Position}
    (h : lookupPos ps k = none) : lookupPos (ps ++ [(k, v)]) k = some v := by
  induction ps with
  | nil => simp [lookupPos]
  | cons kv rest ih =>
    by_cases hk : kv.1 = k
    · simp [lookupPos, hk] at h
    · simp [lookupPos, hk] at h ⊢
      exact ih h

/-- C1: the spec requires a SELL exceeding the held quantity to fail with
`InsufficientPosition`, leaving quantity and average cost unchanged.  With
150 shares held and a SELL of 200, variant A instead reports success and
deletes the position row, and variant B reports success (returning a
transaction id), keeps the position, and still appends the transaction
record: neither rejects the operation. -/
theorem c1_oversell_not_rejected :
    (addTransactionA ⟨[(1, "Growth")], ["AAPL"], [], [((1, "AAPL"), ⟨150, 160⟩)]⟩
        "Growth" "AAPL" 200 170 "SELL").2 = true ∧
    lookupPos (addTransactionA ⟨[(1, "Growth")], ["AAPL"], [], [((1, "AAPL"), ⟨150, 160⟩)]⟩
        "Growth" "AAPL" 200 170 "SELL").1.positions (1, "AAPL") = none ∧
    (addTransactionB ⟨[(1, "Growth")], ["AAPL"], [], [((1, "AAPL"), ⟨150, 160⟩)]⟩
        "Growth" "AAPL" 200 170 "SELL").2 = some 0 ∧
    lookupPos (addTransactionB ⟨[(1, "Growth")], ["AAPL"], [], [((1, "AAPL"), ⟨150, 160⟩)]⟩
        "Growth" "AAPL" 200 170 "SELL").1.positions (1, "AAPL") = some ⟨150, 160⟩ ∧
    (addTransactionB ⟨[(1, "Growth")], ["AAPL"], [], [((1, "AAPL"), ⟨150, 160⟩)]⟩
        "Growth" "AAPL" 200 170 "SELL").1.transactions = [⟨1, "AAPL", 200, 170, "SELL"⟩] := by
  refine ⟨?_, ?_, ?_, ?_, ?_⟩ <;>
    norm_num [addTransactionA, addTransactionB, updatePositionA, updatePositionB,
      lookupPortfolio, lookupPos, erasePos, setPos] <;> decide

/-- The state reached by applying BUY 100 AAPL @ 10 to an empty variant-B
tracker with one portfolio and the AAPL security registered. -/
def buyThenOversellState : TrackerState :=
  (addTransactionB ⟨[(1, "P")], ["AAPL"], [], []⟩ "P" "AAPL" 100 10 "BUY").1

/-- C2: the spec requires the transaction append and the position update to
be atomic, with no silent partial success.  In variant B the transaction
insert is committed before `_update_position` runs, and an oversold SELL
takes the warning-only path: the call reports success and appends the SELL
record while the position is left untouched, so the transaction log
diverges from the position ledger. -/
theorem c2_transaction_logged_without_position_update :
    (addTransactionB buyThenOversellState "P" "AAPL" 200 12 "SELL").2 = some 1 ∧
    (addTransactionB buyThenOversellState "P" "AAPL" 200 12 "SELL").1.transactions =
      [⟨1, "AAPL", 100, 10, "BUY"⟩, ⟨1, "AAPL", 200, 12, "SELL"⟩] ∧
    (addTransactionB buyThenOversellState "P" "AAPL" 200 12 "SELL").1.positions =
      buyThenOversellState.positions ∧
    lookupPos (addTransactionB buyThenOversellState "P" "AAPL" 200 12 "SELL").1.positions
      (1, "AAPL") = some ⟨100, 10⟩ := by
  refine ⟨?_, ?_, ?_, ?_⟩ <;>
    norm_num [buyThenOversellState, addTransactionB, updatePositionB,
      lookupPortfolio, lookupPos, setPos] <;> decide

/-- C3 counterexample: the claim says a transaction with non-positive
quantity, non-positive price, or a type outside {BUY, SELL} is rejected as
`InvalidTransaction` before any mutation.  The schema CHECK constraint does
reject unrecognized types, but quantity and price are never validated:
submitting a SELL of quantity -5 at price -1 succeeds in both variants,
appends the record to the transaction log, and mutates the position
(subtracting -5 raises the quantity from 10 to 15). -/
theorem c3_invalid_transaction_accepted :
    (addTransactionA ⟨[(1, "P")], ["X"], [], [((1, "X"), ⟨10, 5⟩)]⟩
        "P" "X" (-5) (-1) "SELL").2 = true ∧
    (addTransactionA ⟨[(1, "P")], ["X"], [], [((1, "X"), ⟨10, 5⟩)]⟩
        "P" "X" (-5) (-1) "SELL").1.transactions = [⟨1, "X", -5, -1, "SELL"⟩] ∧
    lookupPos (addTransactionA ⟨[(1, "P")], ["X"], [], [((1, "X"), ⟨10, 5⟩)]⟩
        "P" "X" (-5) (-1) "SELL").1.positions (1, "X") = some ⟨15, 5⟩ ∧
    (addTransactionB ⟨[(1, "P")], ["X"], [], [((1, "X"), ⟨10, 5⟩)]⟩
        "P" "X" (-5) (-1) "SELL").2 = some 0 ∧
    lookupPos (addTransactionB ⟨[(1, "P")], ["X"], [], [((1, "X"), ⟨10, 5⟩)]⟩
        "P" "X" (-5) (-1) "SELL").1.positions (1, "X") = some ⟨15, 5⟩ := by
  refine ⟨?_, ?_, ?_, ?_, ?_⟩ <;>
    norm_num [addTransactionA, addTransactionB, updatePositionA, updatePositionB,
      lookupPortfolio, lookupPos, setPos] <;> decide

/-- C8 counterexample: the claim says a cost basis of zero yields a
return_percent of 0 rather than an error or an undefined value.  The
analytics guard and the summary's PRINTF wrapper do yield 0, but the
per-position `return_percent` of `get_positions_detail` has no PRINTF: for
a position with average cost 0 — reachable, since a BUY at price 0 passes
every check — the division by the zero average cost makes it NULL under
SQLite (NaN in the returned frame), an undefined value, not 0. -/
theorem c8_detail_return_undefined_on_zero_cost :
    (addTransactionA ⟨[(1, "P")], [], [], []⟩ "P" "AAPL" 1 0 "BUY").2 = true ∧
    lookupPos (addTransactionA ⟨[(1, "P")], [], [], []⟩ "P" "AAPL" 1 0 "BUY").1.positions
      (1, "AAPL") = some ⟨1, 0⟩ ∧
    (positionDetailRow [] (1, "AAPL") ⟨1, 0⟩).cost_basis = 0 ∧
    (positionDetailRow [] (1, "AAPL") ⟨1, 0⟩).return_percent = none ∧
    (positionDetailRow [] (1, "AAPL") ⟨1, 0⟩).return_percent ≠ some 0 := by
  refine ⟨?_, ?_, ?_, ?_, ?_⟩ <;>
    norm_num [addTransactionA, updatePositionA, lookupPortfolio, lookupPos,
      positionDetailRow, effectivePrice, lookupPrice, sqliteDiv] <;> decide

/-- C4: a BUY of quantity q > 0 at price p > 0 against an existing position
(q0, c0) with q0 ≥ 0 yields quantity q0 + q and the weighted-average cost
(q0·c0 + q·p)/(q0 + q), which equals p exactly when q0 = 0; against a
missing row it creates the position (q, p).  Both variants agree. -/
theorem c4_buy_weighted_average (ps : List (PosKey × Position)) (pid : Nat) (sym : String)
    (q p q0 c0 : ℚ) (hq : 0 < q) (hp : 0 < p) :
    (lookupPos ps (pid, sym) = some ⟨q0, c0⟩ → 0 ≤ q0 →
      (∃ ps₁, updatePositionA ps pid sym q "BUY" p = some ps₁ ∧
        lookupPos ps₁ (pid, sym) = some ⟨q0 + q, (q0 * c0 + q * p) / (q0 + q)⟩) ∧
      lookupPos (updatePositionB ps pid sym q p "BUY") (pid, sym) =
        some ⟨q0 + q, (q0 * c0 + q * p) / (q0 + q)⟩ ∧
      (q0 = 0 → (q0 * c0 + q * p) / (q0 + q) = p)) ∧
    (lookupPos ps (pid, sym) = none →
      (∃ ps₁, updatePositionA ps pid sym q "BUY" p = some ps₁ ∧
        lookupPos ps₁ (pid, sym) = some ⟨q, p⟩) ∧
      lookupPos (updatePositionB ps pid sym q p "BUY") (pid, sym) = some ⟨q, p⟩) := by
  constructor
  · intro hs hq0
    have hpos : 0 < q0 + q := by linarith
    have hne : q0 + q ≠ 0 := ne_of_gt hpos
    have hsome : (lookupPos ps (pid, sym)).isSome := by simp [hs]
    refine ⟨⟨setPos ps (pid, sym) ⟨q0 + q, (q0 * c0 + q * p) / (q0 + q)⟩, ?_, ?_⟩, ?_, ?_⟩
    · simp [updatePositionA, hs, hne, not_le.mpr hpos]
    · exact lookupPos_setPos_self hsome
    · have hB : updatePositionB ps pid sym q p "BUY" =
          setPos ps (pid, sym) ⟨q0 + q, (q0 * c0 + q * p) / (q0 + q)⟩ := by
        simp [updatePositionB, hs, hpos, le_of_lt hpos]
      rw [hB]
      exact lookupPos_setPos_self hsome
    · intro h0
      subst h0
      rw [zero_mul, zero_add, zero_add, mul_div_cancel_left₀ _ (ne_of_gt hq)]
  · intro hs
    refine ⟨⟨ps ++ [((pid, sym), ⟨q, p⟩)], ?_, ?_⟩, ?_⟩
    · simp [updatePositionA, hs]
    · exact lookupPos_append_self hs
    · have hB : updatePositionB ps pid sym q p "BUY" = ps ++ [((pid, sym), ⟨q, p⟩)] := by
        simp [updatePositionB, hs]
      rw [hB]
      exact lookupPos_append_self hs

/-- Witness for C4 at the spec's scenario: BUY 50 @ 180 on a position of
100 shares at average cost 150. -/
theorem c4_buy_weighted_average_witness :
    (0 : ℚ) < 50 ∧ (0 : ℚ) < 180 ∧
    (∃ ps₁, updatePositionA [((1, "AAPL"), ⟨100, 150⟩)] 1 "AAPL" 50 "BUY" 180 = some ps₁ ∧
      lookupPos ps₁ (1, "AAPL") = some ⟨100 + 50, (100 * 150 + 50 * 180) / (100 + 50)⟩) :=
  ⟨by decide, by decide,
    ((c4_buy_weighted_average [((1, "AAPL"), ⟨100, 150⟩)] 1 "AAPL" 50 180 100 150
      (by decide) (by decide)).1 (by decide) (by decide)).1⟩

/-- C7: a SELL of q shares with 0 < q < q0 against an existing position
(q0, c0) leaves the average cost unchanged and only decreases the quantity,
in both variants. -/
theorem c7_sell_preserves_avg_cost (ps : List (PosKey × Position)) (pid : Nat) (sym : String)
    (q p q0 c0 : ℚ) (hs : lookupPos ps (pid, sym) = some ⟨q0, c0⟩)
    (hq : 0 < q) (hlt : q < q0) :
    (∃ ps₁, updatePositionA ps pid sym q "SELL" p = some ps₁ ∧
      lookupPos ps₁ (pid, sym) = some ⟨q0 - q, c0⟩) ∧
    lookupPos (updatePositionB ps pid sym q p "SELL") (pid, sym) = some ⟨q0 - q, c0⟩ := by
  have hpos : 0 < q0 - q := by linarith
  have hsome : (lookupPos ps (pid, sym)).isSome := by simp [hs]
  refine ⟨⟨setPos ps (pid, sym) ⟨q0 - q, c0⟩, ?_, ?_⟩, ?_⟩
  · simp [updatePositionA, hs, not_le.mpr hpos]
  · exact lookupPos_setPos_self hsome
  · have hB : updatePositionB ps pid sym q p "SELL" = setPos ps (pid, sym) ⟨q0 - q, c0⟩ := by
      simp [updatePositionB, hs, le_of_lt hpos]
    rw [hB]
    exact lookupPos_setPos_self hsome

/-- Witness for C7: SELL 50 of 150 held at average cost 160. -/
theorem c7_sell_preserves_avg_cost_witness :
    lookupPos [((1, "AAPL"), ⟨150, 160⟩)] (1, "AAPL") = some ⟨150, 160⟩ ∧
    (0 : ℚ) < 50 ∧ (50 : ℚ) < 150 ∧
    (∃ ps₁, updatePositionA [((1, "AAPL"), ⟨150, 160⟩)] 1 "AAPL" 50 "SELL" 170 = some ps₁ ∧
      lookupPos ps₁ (1, "AAPL") = some ⟨150 - 50, 160⟩) :=
  ⟨by decide, by decide, by decide,
    (c7_sell_preserves_avg_cost [((1, "AAPL"), ⟨150, 160⟩)] 1 "AAPL" 50 170 150 160
      (by decide) (by decide) (by decide)).1⟩

/-- C10 counterexample: the claim says a SELL on a pair with no position
row always succeeds with no error raised and no failure surfaced.  In
variant B, a symbol absent from the securities table makes
`_ensure_security_exists` call `MarketDataService.get_security_info`, a
method that does not exist: AttributeError is raised, the except block
rolls back and re-raises, and nothing is appended — the caller sees a
failure, not success. -/
theorem c10_missing_security_sell_raises :
    addTransactionB ⟨[(1, "P")], [], [], []⟩ "P" "NEW" 5 100 "SELL" =
      (⟨[(1, "P")], [], [], []⟩, none) ∧
    (addTransactionB ⟨[(1, "P")], [], [], []⟩ "P" "NEW" 5 100 "SELL").1.transactions = [] := by
  constructor <;> decide

/-- C10 amended: a SELL on a (portfolio, symbol) pair with no position row
appends the transaction record, reports success and leaves the positions
table unchanged — unconditionally in variant A, and in variant B exactly
when the symbol is already present in the securities table; when it is
not, variant B raises (AttributeError out of `_ensure_security_exists`),
appends nothing and surfaces the failure to the caller. -/
theorem c10_sell_without_position_amended (st : TrackerState) (pname sym : String)
    (q p : ℚ) (pid : Nat) (hpf : lookupPortfolio st.portfolios pname = some pid)
    (hnone : lookupPos st.positions (pid, sym) = none) :
    addTransactionA st pname sym q p "SELL" =
      ({ st with transactions := st.transactions ++ [⟨pid, sym, q, p, "SELL"⟩] }, true) ∧
    (sym ∈ st.securities →
      addTransactionB st pname sym q p "SELL" =
        ({ st with transactions := st.transactions ++ [⟨pid, sym, q, p, "SELL"⟩] },
          some st.transactions.length)) ∧
    (sym ∉ st.securities → addTransactionB st pname sym q p "SELL" = (st, none)) := by
  refine ⟨?_, ?_, ?_⟩
  · simp [addTransactionA, hpf, updatePositionA, hnone]
  · intro hmem
    simp [addTransactionB, hpf, hmem, updatePositionB, hnone]
  · intro hmem
    simp [addTransactionB, hpf, hmem]

/-- Witness for C10's amended claim: SELL 5 AAPL @ 100 against an empty
positions table, with AAPL registered as a security for variant B. -/
theorem c10_sell_without_position_amended_witness :
    lookupPortfolio [(1, "P")] "P" = some 1 ∧
    lookupPos ([] : List (PosKey × Position)) (1, "AAPL") = none ∧
    addTransactionA ⟨[(1, "P")], ["AAPL"], [], []⟩ "P" "AAPL" 5 100 "SELL" =
      (⟨[(1, "P")], ["AAPL"], [⟨1, "AAPL", 5, 100, "SELL"⟩], []⟩, true) ∧
    addTransactionB ⟨[(1, "P")], ["AAPL"], [], []⟩ "P" "AAPL" 5 100 "SELL" =
      (⟨[(1, "P")], ["AAPL"], [⟨1, "AAPL", 5, 100, "SELL"⟩], []⟩, some 0) :=
  ⟨by decide, by decide,
    (c10_sell_without_position_amended ⟨[(1, "P")], ["AAPL"], [], []⟩ "P" "AAPL" 5 100 1
      (by decide) (by decide)).1,
    (c10_sell_without_position_amended ⟨[(1, "P")], ["AAPL"], [], []⟩ "P" "AAPL" 5 100 1
      (by decide) (by decide)).2.1 (by decide)⟩

/-- C6: every valuation query computes with
`COALESCE(md.price, pos.avg_cost)`: the effective price is the live price
when the market_data table holds one and the average cost otherwise, so a
position with no live price has market value equal to cost basis and zero
unrealized P&L, both per row (`get_positions_detail`) and in the portfolio
aggregation (`get_portfolio_summary`). -/
theorem c6_effective_price_fallback (md : List (String × ℚ)) (k : PosKey) (pos : Position)
    (ps : List (PosKey × Position)) :
    (∀ pr, lookupPrice md k.2 = some pr → effectivePrice md k.2 pos.avg_cost = pr) ∧
    (lookupPrice md k.2 = none →
      effectivePrice md k.2 pos.avg_cost = pos.avg_cost ∧
      (positionDetailRow md k pos).market_value = (positionDetailRow md k pos).cost_basis ∧
      (positionDetailRow md k pos).market_value - (positionDetailRow md k pos).cost_basis = 0) ∧
    ((∀ kv ∈ ps, lookupPrice md kv.1.2 = none) →
      summaryMarketValue md ps = summaryCostBasis ps ∧ summaryUnrealizedPL md ps = 0) := by
  refine ⟨?_, ?_, ?_⟩
  · intro pr hpr
    simp [effectivePrice, hpr]
  · intro hnone
    simp [effectivePrice, positionDetailRow, hnone]
  · intro hall
    have hmv : summaryMarketValue md ps = summaryCostBasis ps := by
      unfold summaryMarketValue summaryCostBasis
      congr 1
      apply List.map_congr_left
      intro kv hkv
      simp [effectivePrice, hall kv hkv]
    exact ⟨hmv, by simp [summaryUnrealizedPL, hmv]⟩

/-- Witness for C6: one position of 150 shares at cost 160 and an empty
price store. -/
theorem c6_effective_price_fallback_witness :
    lookupPrice [] "AAPL" = none ∧
    effectivePrice [] "AAPL" (160 : ℚ) = 160 ∧
    summaryMarketValue [] [((1, "AAPL"), ⟨150, 160⟩)] =
      summaryCostBasis [((1, "AAPL"), ⟨150, 160⟩)] ∧
    summaryUnrealizedPL [] [((1, "AAPL"), ⟨150, 160⟩)] = 0 :=
  ⟨by decide,
    ((c6_effective_price_fallback [] (1, "AAPL") ⟨150, 160⟩
      [((1, "AAPL"), ⟨150, 160⟩)]).2.1 (by decide)).1,
    ((c6_effective_price_fallback [] (1, "AAPL") ⟨150, 160⟩
      [((1, "AAPL"), ⟨150, 160⟩)]).2.2 (by decide)).1,
    ((c6_effective_price_fallback [] (1, "AAPL") ⟨150, 160⟩
      [((1, "AAPL"), ⟨150, 160⟩)]).2.2 (by decide)).2⟩

/-- C8 amended: `get_performance_analytics` guards the division — a
non-positive total cost basis yields a return of 0 by convention, a
positive one (value − cost)/cost × 100 — and variant A's summary
`Total_Return` also shows 0 on a zero cost basis, because its PRINTF
wrapper renders the NULL division as 0.0%; but the per-position
`return_percent` of `get_positions_detail`, which has no PRINTF, is NULL
(undefined) whenever the position's average cost is 0. -/
theorem c8_zero_cost_basis_amended (rows : List PerfRow) (md : List (String × ℚ))
    (ps : List (PosKey × Position)) (k : PosKey) (pos : Position) :
    (perfTotalCost rows ≤ 0 → perfTotalReturn rows = 0) ∧
    (0 < perfTotalCost rows →
      perfTotalReturn rows =
        (perfTotalValue rows - perfTotalCost rows) / perfTotalCost rows * 100) ∧
    (summaryCostBasis ps = 0 → summaryTotalReturn md ps = 0) ∧
    (pos.avg_cost = 0 → (positionDetailRow md k pos).return_percent = none) := by
  refine ⟨?_, ?_, ?_, ?_⟩
  · intro h
    simp [perfTotalReturn, not_lt.mpr h]
  · intro h
    simp [perfTotalReturn, h]
  · intro h
    norm_num [summaryTotalReturn, printfPercent1, sqliteDiv, h, sqliteRound, roundHalfAway]
  · intro h
    simp [positionDetailRow, sqliteDiv, h]

/-- Witness for C8 at a portfolio holding one share at average cost 0 and
no market price. -/
theorem c8_zero_cost_basis_amended_witness :
    perfTotalReturn [((1 : ℚ), (0 : ℚ), (none : Option ℚ))] = 0 ∧
    summaryTotalReturn [] [((1, "AAPL"), ⟨1, 0⟩)] = 0 ∧
    (positionDetailRow [] (1, "AAPL") ⟨1, 0⟩).return_percent = none :=
  ⟨(c8_zero_cost_basis_amended [((1 : ℚ), (0 : ℚ), (none : Option ℚ))] []
      [((1, "AAPL"), ⟨1, 0⟩)] (1, "AAPL") ⟨1, 0⟩).1 (by simp [perfTotalCost]),
   (c8_zero_cost_basis_amended [((1 : ℚ), (0 : ℚ), (none : Option ℚ))] []
      [((1, "AAPL"), ⟨1, 0⟩)] (1, "AAPL") ⟨1, 0⟩).2.2.1 (by simp [summaryCostBasis]),
   (c8_zero_cost_basis_amended [((1 : ℚ), (0 : ℚ), (none : Option ℚ))] []
      [((1, "AAPL"), ⟨1, 0⟩)] (1, "AAPL") ⟨1, 0⟩).2.2.2 (by decide)⟩

/-- C3 amended: the type constraint is real but lives in the schema, not
in `add_transaction` — an unrecognized transaction type fails the CHECK at
the transactions INSERT with no mutation (variant A returns False, variant
B rolls back and surfaces the error); quantity and price, however, are
never validated: any SELL, including one with non-positive quantity and
price, is accepted, appended to the log, and applied to the position by
the unchecked subtraction. -/
theorem c3_validation_amended (st : TrackerState) (pname sym : String) (q p : ℚ)
    (ttype : String) (pid : Nat) (hpf : lookupPortfolio st.portfolios pname = some pid)
    (htb : ttype ≠ "BUY") (hts : ttype ≠ "SELL") :
    addTransactionA st pname sym q p ttype = (st, false) ∧
    addTransactionB st pname sym q p ttype = (st, none) ∧
    (∃ ps₁, updatePositionA st.positions pid sym q "SELL" p = some ps₁ ∧
      addTransactionA st pname sym q p "SELL" =
        ({ st with
            transactions := st.transactions ++ [⟨pid, sym, q, p, "SELL"⟩],
            positions := ps₁ }, true)) ∧
    (sym ∈ st.securities →
      addTransactionB st pname sym q p "SELL" =
        ({ st with
            transactions := st.transactions ++ [⟨pid, sym, q, p, "SELL"⟩],
            positions := updatePositionB st.positions pid sym q p "SELL" },
          some st.transactions.length)) := by
  have hsell : ∃ ps₁, updatePositionA st.positions pid sym q "SELL" p = some ps₁ := by
    unfold updatePositionA
    cases lookupPos st.positions (pid, sym) <;> simp
  obtain ⟨ps₁, hps⟩ := hsell
  refine ⟨?_, ?_, ⟨ps₁, hps, ?_⟩, ?_⟩
  · simp [addTransactionA, hpf, htb, hts]
  · by_cases hmem : sym ∈ st.securities <;>
      simp [addTransactionB, hpf, htb, hts, hmem]
  · simp [addTransactionA, hpf, hps]
  · intro hmem
    simp [addTransactionB, hpf, hmem]

/-- Witness for C3's amended claim: type "FOO" is rejected with no
mutation, while SELL -5 @ -1 is accepted and logged, at a one-portfolio
state holding 10 shares of X at cost 5. -/
theorem c3_validation_amended_witness :
    lookupPortfolio [(1, "P")] "P" = some 1 ∧ "FOO" ≠ "BUY" ∧ "FOO" ≠ "SELL" ∧
    addTransactionA ⟨[(1, "P")], ["X"], [], [((1, "X"), ⟨10, 5⟩)]⟩ "P" "X" (-5) (-1) "FOO" =
      (⟨[(1, "P")], ["X"], [], [((1, "X"), ⟨10, 5⟩)]⟩, false) ∧
    (∃ ps₁, updatePositionA [((1, "X"), ⟨10, 5⟩)] 1 "X" (-5) "SELL" (-1) = some ps₁ ∧
      addTransactionA ⟨[(1, "P")], ["X"], [], [((1, "X"), ⟨10, 5⟩)]⟩ "P" "X" (-5) (-1) "SELL" =
        (⟨[(1, "P")], ["X"], [⟨1, "X", -5, -1, "SELL"⟩], ps₁⟩, true)) :=
  ⟨by decide, by decide, by decide,
    (c3_validation_amended ⟨[(1, "P")], ["X"], [], [((1, "X"), ⟨10, 5⟩)]⟩ "P" "X" (-5) (-1)
      "FOO" 1 (by decide) (by decide) (by decide)).1,
    (c3_validation_amended ⟨[(1, "P")], ["X"], [], [((1, "X"), ⟨10, 5⟩)]⟩ "P" "X" (-5) (-1)
      "FOO" 1 (by decide) (by decide) (by decide)).2.2.1⟩

/-- Market data for the spec's winners/losers scenario: returns
+20%, +5%, -10%, -30% for A-D and no live price for E (return 0%). -/
def scenarioMd : List (String × ℚ) := [("A", 120), ("B", 105), ("C", 90), ("D", 70)]

/-- Positions for the winners/losers scenario: one share of each of five
securities at average cost 100. -/
def scenarioPos : List (PosKey × Position) :=
  [((1, "A"), ⟨1, 100⟩), ((1, "B"), ⟨1, 100⟩), ((1, "C"), ⟨1, 100⟩),
   ((1, "D"), ⟨1, 100⟩), ((1, "E"), ⟨1, 100⟩)]

/-- C5 counterexample: with the spec's scenario (returns +20%, +5%, -10%,
-30%, 0%) and topN = 2, the claim predicts winners = the two best rows
["A", "B"] and losers = the two worst; `get_winners_losers` has no topN
parameter — it always returns `head(5)` and `tail(5)`, so both outputs here
are the whole five-row frame. -/
theorem c5_topn_not_honored :
    (getWinnersLosers scenarioMd scenarioPos none).1.map WLRow.symbol =
      ["A", "B", "E", "C", "D"] ∧
    (getWinnersLosers scenarioMd scenarioPos none).2.map WLRow.symbol =
      ["A", "B", "E", "C", "D"] ∧
    (getWinnersLosers scenarioMd scenarioPos none).1.map WLRow.symbol ≠ ["A", "B"] ∧
    (getWinnersLosers scenarioMd scenarioPos none).2.map WLRow.symbol ≠ ["D", "C"] := by
  with_unfolding_all decide

/-- C5 amended: `get_winners_losers` sorts the open (optionally
portfolio-filtered) position rows by `Total_Return` descending and returns
the first five and the last five entries of that same sorted list — the
cut-off is hardwired to 5, there is no topN parameter, and ties are in the
order the sort leaves them, not broken by symbol. -/
theorem c5_winners_losers_amended (md : List (String × ℚ)) (ps : List (PosKey × Position))
    (pfilter : Option Nat) (hne : wlRows md ps pfilter ≠ []) :
    ∃ s : List WLRow, s.Perm (wlRows md ps pfilter) ∧ s.Sorted wlDesc ∧
      getWinnersLosers md ps pfilter = (s.take 5, s.drop (s.length - 5)) := by
  refine ⟨List.insertionSort wlDesc (wlRows md ps pfilter),
    List.perm_insertionSort wlDesc _, List.sorted_insertionSort wlDesc _, ?_⟩
  cases hr : wlRows md ps pfilter with
  | nil => exact absurd hr hne
  | cons a l => simp [getWinnersLosers, hr]

/-- Witness for C5's amended claim at the scenario rows. -/
theorem c5_winners_losers_amended_witness :
    wlRows scenarioMd scenarioPos none ≠ [] ∧
    (∃ s : List WLRow, s.Perm (wlRows scenarioMd scenarioPos none) ∧ s.Sorted wlDesc ∧
      getWinnersLosers scenarioMd scenarioPos none = (s.take 5, s.drop (s.length - 5))) :=
  ⟨by decide, c5_winners_losers_amended scenarioMd scenarioPos none (by decide)⟩

/-- Invariant of the BUY-only replay: from any position holding quantity
q0 > 0 at average cost w0/q0, folding further buys of positive quantity
adds the quantities and accumulates quantity × price in the numerator. -/
theorem applyBuys_invariant (pid : Nat) (sym : String) (l : List (ℚ × ℚ)) :
    ∀ ps q0 w0, (∀ x ∈ l, 0 < x.1) → 0 < q0 →
      lookupPos ps (pid, sym) = some ⟨q0, w0 / q0⟩ →
      ∃ ps', (l.foldlM (fun acc qp => updatePositionA acc pid sym qp.1 "BUY" qp.2) ps)
          = some ps' ∧
        lookupPos ps' (pid, sym) = some ⟨q0 + sumQ l, (w0 + sumQP l) / (q0 + sumQ l)⟩ := by
  induction l with
  | nil =>
    intro ps q0 w0 _ hq0 hlook
    exact ⟨ps, by simp, by simp [sumQ, sumQP, hlook]⟩
  | cons qp t ih =>
    intro ps q0 w0 hpos hq0 hlook
    have hqpos : 0 < qp.1 := hpos qp (List.mem_cons_self qp t)
    have hsum : 0 < q0 + qp.1 := by linarith
    have hne : q0 + qp.1 ≠ 0 := ne_of_gt hsum
    have hq0ne : q0 ≠ 0 := ne_of_gt hq0
    have hstep : updatePositionA ps pid sym qp.1 "BUY" qp.2 =
        some (setPos ps (pid, sym)
          ⟨q0 + qp.1, (w0 + qp.1 * qp.2) / (q0 + qp.1)⟩) := by
      have hmul : q0 * (w0 / q0) = w0 := by field_simp
      simp [updatePositionA, hlook, hne, not_le.mpr hsum, hmul]
    have hlook1 : lookupPos (setPos ps (pid, sym)
        ⟨q0 + qp.1, (w0 + qp.1 * qp.2) / (q0 + qp.1)⟩) (pid, sym) =
        some ⟨q0 + qp.1, (w0 + qp.1 * qp.2) / (q0 + qp.1)⟩ :=
      lookupPos_setPos_self (by simp [hlook])
    obtain ⟨ps', hfold, hlook'⟩ :=
      ih (setPos ps (pid, sym) ⟨q0 + qp.1, (w0 + qp.1 * qp.2) / (q0 + qp.1)⟩)
        (q0 + qp.1) (w0 + qp.1 * qp.2)
        (fun x hx => hpos x (List.mem_cons_of_mem qp hx)) hsum hlook1
    refine ⟨ps', ?_, ?_⟩
    · rw [List.foldlM_cons, hstep]
      exact hfold
    · rw [hlook']
      have h1 : q0 + qp.1 + sumQ t = q0 + sumQ (qp :: t) := by
        simp [sumQ]
        ring
      have h2 : w0 + qp.1 * qp.2 + sumQP t = w0 + sumQP (qp :: t) := by
        simp [sumQP]
        ring
      rw [h1, h2]

/-- A nonempty BUY-only replay from an empty table lands on the position
whose quantity is the total bought quantity and whose average cost is the
quantity-weighted mean of the buy prices. -/
theorem applyBuysA_eq (pid : Nat) (sym : String) (l : List (ℚ × ℚ))
    (hpos : ∀ x ∈ l, 0 < x.1) (hne : l ≠ []) :
    ∃ ps, applyBuysA pid sym l = some ps ∧
      lookupPos ps (pid, sym) = some ⟨sumQ l, sumQP l / sumQ l⟩ := by
  match l, hne with
  | q :: t, _ =>
    have hq : 0 < q.1 := hpos q (List.mem_cons_self q t)
    have hqne : q.1 ≠ 0 := ne_of_gt hq
    have hstep : updatePositionA [] pid sym q.1 "BUY" q.2 =
        some [((pid, sym), ⟨q.1, q.2⟩)] := by
      simp [updatePositionA, lookupPos]
    have hlook1 : lookupPos [((pid, sym), ⟨q.1, q.2⟩)] (pid, sym) =
        some ⟨q.1, (q.1 * q.2) / q.1⟩ := by
      have : (q.1 * q.2) / q.1 = q.2 := by field_simp
      simp [lookupPos, this]
    obtain ⟨ps, hfold, hlook⟩ :=
      applyBuys_invariant pid sym t [((pid, sym), ⟨q.1, q.2⟩)] q.1 (q.1 * q.2)
        (fun x hx => hpos x (List.mem_cons_of_mem q hx)) hq hlook1
    refine ⟨ps, ?_, ?_⟩
    · unfold applyBuysA
      rw [List.foldlM_cons, hstep]
      exact hfold
    · rw [hlook]
      have h1 : q.1 + sumQ t = sumQ (q :: t) := by simp [sumQ]
      have h2 : q.1 * q.2 + sumQP t = sumQP (q :: t) := by simp [sumQP]
      rw [h1, h2]

/-- C9: replaying any nonempty sequence of BUYs with positive quantities
and prices through variant A's `_update_position` yields the position whose
average cost is the quantity-weighted mean of the buy prices, and any
permutation of the same sequence yields the identical final position. -/
theorem c9_buys_weighted_mean_order_independent (pid : Nat) (sym : String)
    (l l' : List (ℚ × ℚ)) (hpos : ∀ x ∈ l, 0 < x.1 ∧ 0 < x.2) (hne : l ≠ [])
    (hperm : l.Perm l') :
    (∃ ps, applyBuysA pid sym l = some ps ∧
      lookupPos ps (pid, sym) = some ⟨sumQ l, sumQP l / sumQ l⟩) ∧
    (∃ ps, applyBuysA pid sym l' = some ps ∧
      lookupPos ps (pid, sym) = some ⟨sumQ l, sumQP l / sumQ l⟩) := by
  have hq : ∀ x ∈ l, 0 < x.1 := fun x hx => (hpos x hx).1
  have hq' : ∀ x ∈ l', 0 < x.1 := fun x hx => (hpos x (hperm.mem_iff.mpr hx)).1
  have hne' : l' ≠ [] := by
    intro h
    subst h
    exact hne hperm.eq_nil
  have hsq : sumQ l = sumQ l' := (hperm.map Prod.fst).sum_eq
  have hsqp : sumQP l = sumQP l' := by
    unfold sumQP
    exact (hperm.map (fun x => x.1 * x.2)).sum_eq
  refine ⟨applyBuysA_eq pid sym l hq hne, ?_⟩
  rw [hsq, hsqp]
  exact applyBuysA_eq pid sym l' hq' hne'

/-- Witness for C9: the spec scenario BUY 100 @ 150 then BUY 50 @ 180, and
its reversal, both end at 150 shares with average cost 160. -/
theorem c9_buys_weighted_mean_order_independent_witness :
    (∀ x ∈ [((100 : ℚ), (150 : ℚ)), (50, 180)], 0 < x.1 ∧ 0 < x.2) ∧
    ([((100 : ℚ), (150 : ℚ)), (50, 180)] : List (ℚ × ℚ)) ≠ [] ∧
    (∃ ps, applyBuysA 1 "AAPL" [((100 : ℚ), (150 : ℚ)), (50, 180)] = some ps ∧
      lookupPos ps (1, "AAPL") =
        some ⟨sumQ [((100 : ℚ), (150 : ℚ)), (50, 180)],
          sumQP [((100 : ℚ), (150 : ℚ)), (50, 180)] /
            sumQ [((100 : ℚ), (150 : ℚ)), (50, 180)]⟩) ∧
    (∃ ps, applyBuysA 1 "AAPL" [((50 : ℚ), (180 : ℚ)), (100, 150)] = some ps ∧
      lookupPos ps (1, "AAPL") =
        some ⟨sumQ [((100 : ℚ), (150 : ℚ)), (50, 180)],
          sumQP [((100 : ℚ), (150 : ℚ)), (50, 180)] /
            sumQ [((100 : ℚ), (150 : ℚ)), (50, 180)]⟩) :=
  ⟨by decide, by decide,
    (c9_buys_weighted_mean_order_independent 1 "AAPL"
      [((100 : ℚ), (150 : ℚ)), (50, 180)] [((50 : ℚ), (180 : ℚ)), (100, 150)]
      (by decide) (by decide) (List.Perm.swap (50, 180) (100, 150) [])).1,
    (c9_buys_weighted_mean_order_independent 1 "AAPL"
      [((100 : ℚ), (150 : ℚ)), (50, 180)] [((50 : ℚ), (180 : ℚ)), (100, 150)]
      (by decide) (by decide) (List.Perm.swap (50, 180) (100, 150) [])).2⟩
